import Mathlib

/-!
Verification of the raptor_dbw_can drive-by-wire CAN translation node
(`src/raptor_dbw_can/src/raptor_dbw_can.cpp`).

The node's state and handlers are shallowly embedded: the enable/fault/
override arbitration engine becomes a pure state-passing machine, the
per-subsystem command encoders become pure functions from typed commands
(and the current enabled flag) to outbound frames, the report decoders
become functions from inbound frames to state updates plus report objects,
and the kinematics projector becomes a pure update of the joint-state
record.  All CAN signal values are modelled as exact rationals (the codec
stores them as doubles); `fmod`/`roundf` are modelled exactly.
-/

namespace RaptorDbw

/-- Boolean view of a signal value, mirroring the C++ `x ? true : false`
and implicit `double`-to-`bool` conversions (nonzero means true). -/
def toB (x : ℚ) : Bool := x ≠ 0

/-- Truncation toward zero of a rational, as C double-to-integer-seconds
conversion and C `fmod` use it. -/
def ratTrunc (q : ℚ) : ℤ := if 0 ≤ q then ⌊q⌋ else -⌊-q⌋

/-- Exact model of C `fmod x y`: `x - trunc (x / y) * y`. -/
def cfmod (x y : ℚ) : ℚ := x - y * ((ratTrunc (x / y) : ℤ) : ℚ)

/-- Exact model of C `roundf`: round half away from zero. -/
def roundHalfAway (q : ℚ) : ℤ := if 0 ≤ q then ⌊q + 1 / 2⌋ else -⌊-q + 1 / 2⌋

/-- The exact value of the double constant `M_PI`. -/
def piD : ℚ := 884279719003555 / 281474976710656

/-- C++ `std::max(a, b)`: `a < b ? b : a`. -/
def qmax (a b : ℚ) : ℚ := if a < b then b else a

/-- C++ `std::min(a, b)`: `b < a ? b : a`. -/
def qmin (a b : ℚ) : ℚ := if b < a then b else a

/-! ## Arbitration engine

State from the constructor (lines 50-60): the `enables_` array holds the
active flag `EN_DBW` and the last-published shadow `EN_DBW_PREV`
(initialized true so the first publish fires); `overrides_` and `faults_`
are boolean arrays. -/

/-- Modelled from the spec: the `ListOverrides` enumeration lives in the
missing header; the spec's SubsystemId set gives one override slot per
subsystem used by the code (`OVR_BRAKE`, `OVR_ACCEL`, `OVR_STEER`,
`OVR_GEAR`, `OVR_DUMP_BED`, `OVR_ENGINE`). -/
def NUM_OVERRIDES : Nat := 6

def OVR_BRAKE : Nat := 0
def OVR_ACCEL : Nat := 1
def OVR_STEER : Nat := 2
def OVR_GEAR : Nat := 3
def OVR_DUMP_BED : Nat := 4
def OVR_ENGINE : Nat := 5

/-- Modelled from the spec: the `ListFaults` enumeration lives in the
missing header; one serious fault per safety-relevant subsystem plus the
watchdog, with the two watchdog-derived bits (braking, warning) beyond
`NUM_SERIOUS_FAULTS`.  `FAULT_ACCEL` is the first entry (the
`enableSystem` logging loop starts there). -/
def NUM_SERIOUS_FAULTS : Nat := 8

def FAULT_ACCEL : Nat := 0
def FAULT_BRAKE : Nat := 1
def FAULT_STEER : Nat := 2
def FAULT_ACTION : Nat := 3
def FAULT_ARTIC : Nat := 4
def FAULT_DUMP_BED : Nat := 5
def FAULT_ENGINE : Nat := 6
def FAULT_WATCH : Nat := 7
def FAULT_WATCH_BRAKES : Nat := 8
def FAULT_WATCH_WARN : Nat := 9
def NUM_FAULTS : Nat := 10

/-- Arbitration engine state: `active` is `enables_[EN_DBW]`, `prev` is
the last-published shadow `enables_[EN_DBW_PREV]`. -/
structure DbwState where
  active : Bool
  prev : Bool
  overrides : List Bool
  faults : List Bool
  deriving DecidableEq

/-- Constructor state: everything false except the published shadow. -/
def initState : DbwState :=
  { active := false,
    prev := true,
    overrides := List.replicate NUM_OVERRIDES false,
    faults := List.replicate NUM_FAULTS false }

/-- Modelled from the spec: `enabled()` is an inline helper in the missing
header; the spec defines `isEnabled()` as a pure read of `active`. -/
def enabled (s : DbwState) : Bool := s.active

/-- Modelled from the spec: `fault()` is an inline helper in the missing
header; the spec has `requestEnable` reject iff some serious fault is
currently true. -/
def faultAny (s : DbwState) : Bool :=
  (List.range NUM_SERIOUS_FAULTS).any (fun i => s.faults.getD i false)

/-- Serious-fault indices currently asserted, in enumeration order; the
`enableSystem` rejection loop logs exactly these (each by its
`FAULT_SYSTEM` name). -/
def assertedFaults (s : DbwState) : List Nat :=
  (List.range NUM_SERIOUS_FAULTS).filter (fun i => s.faults.getD i false)

/-- `publishDbwEnabled` (lines 1555-1567): publishes the enabled flag when
it differs from the shadow, writes the shadow back, and returns whether it
fired.  Second component lists the published boolean events. -/
def publishDbwEnabled (s : DbwState) : DbwState × List Bool × Bool :=
  let en := enabled s
  if s.prev ≠ en then ({ s with prev := en }, [en], true)
  else ({ s with prev := en }, [], false)

/-- `setOverride` (lines 1678-1702): in-range guard, synchronous disable
when asserting while enabled, store, then publish. -/
def setOverride (which : Nat) (v : Bool) (s : DbwState) : DbwState × List Bool :=
  if which < NUM_OVERRIDES then
    let en := enabled s
    let s1 := if v && en then { s with active := false } else s
    let s2 := { s1 with overrides := s1.overrides.set which v }
    let p := publishDbwEnabled s2
    (p.1, p.2.1)
  else (s, [])

/-- `setFault` (lines 1704-1728): same shape as `setOverride`, guarded by
`NUM_SERIOUS_FAULTS`. -/
def setFault (which : Nat) (v : Bool) (s : DbwState) : DbwState × List Bool :=
  if which < NUM_SERIOUS_FAULTS then
    let en := enabled s
    let s1 := if v && en then { s with active := false } else s
    let s2 := { s1 with faults := s1.faults.set which v }
    let p := publishDbwEnabled s2
    (p.1, p.2.1)
  else (s, [])

/-- `enableSystem` (lines 1638-1665): no-op when active; when any serious
fault is set, log each asserted fault and stay disabled; otherwise become
active and publish.  Output: new state, published events, logged fault
indices. -/
def enableSystem (s : DbwState) : DbwState × List Bool × List Nat :=
  if !s.active then
    if faultAny s then (s, [], assertedFaults s)
    else
      let s1 := { s with active := true }
      let p := publishDbwEnabled s1
      (p.1, p.2.1, [])
  else (s, [], [])

/-- `disableSystem` (lines 1667-1676). -/
def disableSystem (s : DbwState) : DbwState × List Bool :=
  if s.active then
    let s1 := { s with active := false }
    let p := publishDbwEnabled s1
    (p.1, p.2.1)
  else (s, [])

/-- `faultWatchdog(fault, src, braking)` (lines 1730-1759): routes the
primary fault through `setFault(FAULT_WATCH, ·)`, maintains the warning
bit, then stores the braking bit.  Logging calls are I/O only. -/
def faultWatchdog3 (fault : Bool) (src : Nat) (braking : Bool)
    (s : DbwState) : DbwState × List Bool :=
  let r := setFault FAULT_WATCH fault s
  let s1 := r.1
  let s2 :=
    if fault && (src ≠ 0 : Bool) && !(s1.faults.getD FAULT_WATCH_WARN false) then
      { s1 with faults := s1.faults.set FAULT_WATCH_WARN true }
    else if !fault then
      { s1 with faults := s1.faults.set FAULT_WATCH_WARN false }
    else s1
  let s3 := { s2 with faults := s2.faults.set FAULT_WATCH_BRAKES braking }
  (s3, r.2)

/-- Two-argument `faultWatchdog` overload (lines 1761-1764): reuse the
stored braking bit. -/
def faultWatchdog2 (fault : Bool) (src : Nat) (s : DbwState) : DbwState × List Bool :=
  faultWatchdog3 fault src (s.faults.getD FAULT_WATCH_BRAKES false) s

/-- The arbitration engine's externally invokable operations (spec 4.1). -/
inductive ArbOp where
  | enableReq : ArbOp
  | disableReq : ArbOp
  | faultOp : Nat → Bool → ArbOp
  | overrideOp : Nat → Bool → ArbOp
  | publishOp : ArbOp
  deriving DecidableEq

/-- State transition of one arbitration operation. -/
def ArbOp.apply (op : ArbOp) (s : DbwState) : DbwState :=
  match op with
  | .enableReq => (enableSystem s).1
  | .disableReq => (disableSystem s).1
  | .faultOp i v => (setFault i v s).1
  | .overrideOp i v => (setOverride i v s).1
  | .publishOp => (publishDbwEnabled s).1

/-! ## Command encoders

Each encoder zeroes every signal of its message, conditionally assigns a
few, and emits the resulting frame.  A frame is the tuple of its signal
values (all doubles in the codec, modelled as rationals).  The shared
`DbcMessage` objects make the zero-first style yield pure functions of the
command and the enabled flag. -/

/-- Modelled from the spec: `ActuatorControlMode` constants come from the
message package outside `src/`; only distinctness and the none-fallback
matter (the encoder writes its own literal request-type codes). -/
def MODE_NONE : Nat := 0
def OPEN_LOOP : Nat := 1
def CLOSED_LOOP_ACTUATOR : Nat := 2
def CLOSED_LOOP_VEHICLE : Nat := 3

/-- Modelled from the spec: `ArticulationControlMode` constants
(`NONE`, `ANGLE`) from the message package outside `src/`. -/
def ARTIC_NONE : Nat := 0
def ARTIC_ANGLE : Nat := 1

/-- Modelled from the spec: `DumpBedControlMode` constants
(`NONE`, `MODE`, `ANGLE`) from the message package outside `src/`. -/
def DB_NONE : Nat := 0
def DB_MODE : Nat := 1
def DB_ANGLE : Nat := 2

/-- Modelled from the spec: `DumpBedModeRequest` constants
(`LOWER`, `RAISE`) from the message package outside `src/`. -/
def DBM_LOWER : Nat := 1
def DBM_RAISE : Nat := 2

/-- Signals of the `AKit_BrakeRequest` message. -/
structure BrakeFrame where
  pedalReq : ℚ
  ctrlEnblReq : ℚ
  ctrlReqType : ℚ
  pcntTorqueReq : ℚ
  decelLim : ℚ
  negJerkLim : ℚ
  parkingBrkReq : ℚ
  rollingCntr : ℚ
  deriving DecidableEq

def neutralBrakeFrame : BrakeFrame :=
  { pedalReq := 0, ctrlEnblReq := 0, ctrlReqType := 0, pcntTorqueReq := 0,
    decelLim := 0, negJerkLim := 0, parkingBrkReq := 0, rollingCntr := 0 }

/-- The `BrakeCmd` message fields the encoder reads. -/
structure BrakeCmd where
  enable : Bool
  control_type : Nat
  pedal_cmd : ℚ
  torque_cmd : ℚ
  decel_limit : ℚ
  decel_negative_jerk_limit : ℚ
  park_brake_status : ℚ
  rolling_counter : ℚ
  deriving DecidableEq

/-- `recvBrakeCmd` (lines 1106-1152): zero all signals; when the system is
enabled, select the payload shape by control mode, mirror the command's
enable flag, and pass the parking-brake request for recognized modes; the
rolling counter is copied through unconditionally. -/
def encodeBrake (en : Bool) (m : BrakeCmd) : BrakeFrame :=
  let f0 := neutralBrakeFrame
  let f1 :=
    if en then
      let fa :=
        if m.control_type = OPEN_LOOP then
          { f0 with ctrlReqType := 0, pedalReq := m.pedal_cmd }
        else if m.control_type = CLOSED_LOOP_ACTUATOR then
          { f0 with ctrlReqType := 1, pcntTorqueReq := m.torque_cmd }
        else if m.control_type = CLOSED_LOOP_VEHICLE then
          { f0 with
            ctrlReqType := 2, decelLim := m.decel_limit,
            negJerkLim := m.decel_negative_jerk_limit }
        else { f0 with ctrlReqType := 0 }
      let fb := if m.enable then { fa with ctrlEnblReq := 1 } else fa
      if m.control_type = OPEN_LOOP ∨ m.control_type = CLOSED_LOOP_ACTUATOR ∨
          m.control_type = CLOSED_LOOP_VEHICLE then
        { fb with parkingBrkReq := m.park_brake_status }
      else fb
    else f0
  { f1 with rollingCntr := m.rolling_counter }

/-- Signals of the `AKit_SteeringRequest` message. -/
structure SteeringFrame where
  angleReq : ℚ
  velocityLim : ℚ
  ctrlEnblReq : ℚ
  ignoreOvrd : ℚ
  pcntTrqReq : ℚ
  reqType : ℚ
  vehCurvatureReq : ℚ
  checksum : ℚ
  rollingCntr : ℚ
  deriving DecidableEq

def neutralSteeringFrame : SteeringFrame :=
  { angleReq := 0, velocityLim := 0, ctrlEnblReq := 0, ignoreOvrd := 0,
    pcntTrqReq := 0, reqType := 0, vehCurvatureReq := 0, checksum := 0,
    rollingCntr := 0 }

/-- The `SteeringCmd` message fields the encoder reads. -/
structure SteeringCmd where
  enable : Bool
  ignore : Bool
  control_type : Nat
  angle_cmd : ℚ
  angle_velocity : ℚ
  torque_cmd : ℚ
  vehicle_curvature_cmd : ℚ
  rolling_counter : ℚ
  deriving DecidableEq

/-- The velocity-limit transform of lines 1240-1249:
`max(1, min(254, roundf(|v| / 2)))`. -/
def steerVelLimit (v : ℚ) : ℚ :=
  qmax 1 (qmin 254 ((roundHalfAway (|v| / 2) : ℤ) : ℚ))

/-- `recvSteeringCmd` (lines 1206-1264): zero all signals; when enabled,
select payload shape by control mode (angle clamped to
`[-max_steer_angle, max_steer_angle]`), apply the velocity-limit transform
only for a nonzero commanded velocity, mirror the enable flag; the
ignore-driver flag and rolling counter are copied outside the enabled
guard. -/
def encodeSteering (maxSteer : ℚ) (en : Bool) (m : SteeringCmd) : SteeringFrame :=
  let f0 := neutralSteeringFrame
  let f1 :=
    if en then
      let fa :=
        if m.control_type = OPEN_LOOP then
          { f0 with reqType := 0, pcntTrqReq := m.torque_cmd }
        else if m.control_type = CLOSED_LOOP_ACTUATOR then
          { f0 with
            reqType := 1,
            angleReq := qmax (-1 * maxSteer) (qmin (maxSteer * 1) m.angle_cmd) }
        else if m.control_type = CLOSED_LOOP_VEHICLE then
          { f0 with reqType := 2, vehCurvatureReq := m.vehicle_curvature_cmd }
        else { f0 with reqType := 0 }
      let fb :=
        if |m.angle_velocity| > 0 then
          { fa with velocityLim := steerVelLimit m.angle_velocity }
        else fa
      if m.enable then { fb with ctrlEnblReq := 1 } else fb
    else f0
  let f2 := if m.ignore then { f1 with ignoreOvrd := 1 } else f1
  { f2 with rollingCntr := m.rolling_counter }

/-- Signals of the `AKit_ArticulationRequest` message. -/
structure ArticulationFrame where
  checksum : ℚ
  ctrlEnblReq : ℚ
  reqType : ℚ
  angleReq : ℚ
  ignoreOvrd : ℚ
  velocityLimit : ℚ
  rollingCntr : ℚ
  deriving DecidableEq

def neutralArticulationFrame : ArticulationFrame :=
  { checksum := 0, ctrlEnblReq := 0, reqType := 0, angleReq := 0,
    ignoreOvrd := 0, velocityLimit := 0, rollingCntr := 0 }

/-- The `ArticulationCmd` message fields the encoder reads. -/
structure ArticulationCmd where
  enable : Bool
  ignore_driver : ℚ
  control_type : Nat
  angle_cmd : ℚ
  velocity_limit : ℚ
  rolling_counter : ℚ
  deriving DecidableEq

/-- `recvArticulationCmd` (lines 1415-1459): zero all signals; populate
only when the system and the command are both enabled; the angle is
clamped to `[-max_articulation_angle, max_articulation_angle]`; the
velocity limit is copied through unmodified; the rolling counter is
unconditional. -/
def encodeArticulation (maxArtic : ℚ) (en : Bool) (m : ArticulationCmd) :
    ArticulationFrame :=
  let f0 := neutralArticulationFrame
  let f1 :=
    if en && m.enable then
      let fa :=
        if m.control_type = ARTIC_ANGLE then
          { f0 with
            reqType := (m.control_type : ℚ),
            angleReq := qmax (-1 * maxArtic) (qmin (maxArtic * 1) m.angle_cmd) }
        else { f0 with reqType := (ARTIC_NONE : ℚ) }
      { fa with
        ctrlEnblReq := 1, ignoreOvrd := m.ignore_driver,
        velocityLimit := m.velocity_limit }
    else f0
  { f1 with rollingCntr := m.rolling_counter }

/-- Signals of the `AKit_DumpBedRequest` message. -/
structure DumpBedFrame where
  checksum : ℚ
  ctrlEnblReq : ℚ
  reqType : ℚ
  modeReq : ℚ
  leverPercentReq : ℚ
  angleReq : ℚ
  ignoreOvrd : ℚ
  velocityLimit : ℚ
  rollingCntr : ℚ
  deriving DecidableEq

def neutralDumpBedFrame : DumpBedFrame :=
  { checksum := 0, ctrlEnblReq := 0, reqType := 0, modeReq := 0,
    leverPercentReq := 0, angleReq := 0, ignoreOvrd := 0, velocityLimit := 0,
    rollingCntr := 0 }

/-- The `DumpBedCmd` message fields the encoder reads. -/
structure DumpBedCmd where
  enable : Bool
  ignore_driver : ℚ
  control_type : Nat
  mode_type : Nat
  lever_pct : ℚ
  angle_cmd : ℚ
  velocity_limit : ℚ
  rolling_counter : ℚ
  deriving DecidableEq

/-- `recvDumpBedCmd` (lines 1461-1517): zero all signals; populate only
when the system and the command are both enabled; mode control applies the
lever percentage only for LOWER/RAISE; angle control clamps to
`[0, max_dump_angle]`; the velocity limit is copied through unmodified;
the rolling counter is unconditional. -/
def encodeDumpBed (maxDump : ℚ) (en : Bool) (m : DumpBedCmd) : DumpBedFrame :=
  let f0 := neutralDumpBedFrame
  let f1 :=
    if en && m.enable then
      let fa :=
        if m.control_type = DB_MODE then
          let fm := { f0 with
            reqType := (m.control_type : ℚ),
            modeReq := (m.mode_type : ℚ) }
          if m.mode_type = DBM_LOWER ∨ m.mode_type = DBM_RAISE then
            { fm with leverPercentReq := m.lever_pct }
          else fm
        else if m.control_type = DB_ANGLE then
          { f0 with
            reqType := (m.control_type : ℚ),
            angleReq := qmax 0 (qmin (maxDump * 1) m.angle_cmd) }
        else { f0 with reqType := (DB_NONE : ℚ) }
      { fa with
        ctrlEnblReq := 1, ignoreOvrd := m.ignore_driver,
        velocityLimit := m.velocity_limit }
    else f0
  { f1 with rollingCntr := m.rolling_counter }

/-! ## Fail-safe neutralization timer

`timerCallback` (lines 1569-1636) manipulates the persistent `DbcMessage`
objects directly: for each overridden subsystem it zeroes a fixed subset
of that message's signals and publishes the resulting frame.  Signals not
in that subset keep whatever value the last encoder call left. -/

/-- Signals of the `AKit_AccelPdlRequest` message (the timer zeroes only
the first three). -/
structure AccelPdlFrame where
  pdlReq : ℚ
  enblReq : ℚ
  ignoreOvrd : ℚ
  rollingCntr : ℚ
  reqType : ℚ
  pcntTorqueReq : ℚ
  checksum : ℚ
  speedReq : ℚ
  roadSlope : ℚ
  accelLim : ℚ
  posJerkLim : ℚ
  deriving DecidableEq

def neutralAccelPdlFrame : AccelPdlFrame :=
  { pdlReq := 0, enblReq := 0, ignoreOvrd := 0, rollingCntr := 0,
    reqType := 0, pcntTorqueReq := 0, checksum := 0, speedReq := 0,
    roadSlope := 0, accelLim := 0, posJerkLim := 0 }

/-- Signals of the `AKit_GearRequest` message touched by the timer (a
message distinct from the gear command encoder's `AKit_PrndRequest`). -/
structure GearReqFrame where
  prndStateCmd : ℚ
  prndChecksum : ℚ
  deriving DecidableEq

def neutralGearReqFrame : GearReqFrame :=
  { prndStateCmd := 0, prndChecksum := 0 }

/-- Signals of the `AKit_EngineRequest` message. -/
structure EngineFrame where
  checksum : ℚ
  ctrlEnblReq : ℚ
  modeReq : ℚ
  reqType : ℚ
  rollingCntr : ℚ
  deriving DecidableEq

def neutralEngineFrame : EngineFrame :=
  { checksum := 0, ctrlEnblReq := 0, modeReq := 0, reqType := 0,
    rollingCntr := 0 }

/-- Persistent signal values of the outbound `DbcMessage` objects the
timer touches (shared with the command encoders). -/
structure CodecState where
  brake : BrakeFrame
  accel : AccelPdlFrame
  steer : SteeringFrame
  gearReq : GearReqFrame
  dumpBed : DumpBedFrame
  engine : EngineFrame
  deriving DecidableEq

def initCodec : CodecState :=
  { brake := neutralBrakeFrame, accel := neutralAccelPdlFrame,
    steer := neutralSteeringFrame, gearReq := neutralGearReqFrame,
    dumpBed := neutralDumpBedFrame, engine := neutralEngineFrame }

/-- A frame published on the CAN output, tagged by its message. -/
inductive OutFrame where
  | brakeF : BrakeFrame → OutFrame
  | accelF : AccelPdlFrame → OutFrame
  | steerF : SteeringFrame → OutFrame
  | gearF : GearReqFrame → OutFrame
  | dumpBedF : DumpBedFrame → OutFrame
  | engineF : EngineFrame → OutFrame
  deriving DecidableEq

/-- Modelled from the spec: `clear()` is an inline helper in the missing
header guarding `timerCallback`; the spec states the fail-safe timer acts
only while `isEnabled()` is false. -/
def clearCond (s : DbwState) : Bool := !enabled s

/-- `timerCallback` (lines 1569-1636): when the guard holds, walk the
subsystems in source order and, for each one whose override flag is set,
zero the listed signals of its outbound message and publish the frame. -/
def timerCallback (st : DbwState) (c : CodecState) : CodecState × List OutFrame :=
  if clearCond st then
    let bFr := { c.brake with pedalReq := 0, ctrlEnblReq := 0 }
    let c1 := if st.overrides.getD OVR_BRAKE false then { c with brake := bFr } else c
    let e1 : List OutFrame :=
      if st.overrides.getD OVR_BRAKE false then [.brakeF bFr] else []
    let aFr := { c1.accel with pdlReq := 0, enblReq := 0, ignoreOvrd := 0 }
    let c2 := if st.overrides.getD OVR_ACCEL false then { c1 with accel := aFr } else c1
    let e2 : List OutFrame :=
      if st.overrides.getD OVR_ACCEL false then [.accelF aFr] else []
    let sFr := { c2.steer with
      angleReq := 0, velocityLim := 0, ignoreOvrd := 0, pcntTrqReq := 0 }
    let c3 := if st.overrides.getD OVR_STEER false then { c2 with steer := sFr } else c2
    let e3 : List OutFrame :=
      if st.overrides.getD OVR_STEER false then [.steerF sFr] else []
    let gFr := { c3.gearReq with prndStateCmd := 0, prndChecksum := 0 }
    let c4 := if st.overrides.getD OVR_GEAR false then { c3 with gearReq := gFr } else c3
    let e4 : List OutFrame :=
      if st.overrides.getD OVR_GEAR false then [.gearF gFr] else []
    let dFr := { c4.dumpBed with
      checksum := 0, ctrlEnblReq := 0, reqType := 0, modeReq := 0,
      leverPercentReq := 0, angleReq := 0, ignoreOvrd := 0, velocityLimit := 0 }
    let c5 :=
      if st.overrides.getD OVR_DUMP_BED false then { c4 with dumpBed := dFr } else c4
    let e5 : List OutFrame :=
      if st.overrides.getD OVR_DUMP_BED false then [.dumpBedF dFr] else []
    let eFr := { c5.engine with
      checksum := 0, ctrlEnblReq := 0, modeReq := 0, reqType := 0 }
    let c6 :=
      if st.overrides.getD OVR_ENGINE false then { c5 with engine := eFr } else c5
    let e6 : List OutFrame :=
      if st.overrides.getD OVR_ENGINE false then [.engineF eFr] else []
    (c6, e1 ++ e2 ++ e3 ++ e4 ++ e5 ++ e6)
  else (c, [])

/-! ## The remaining command encoders

These complete the encoder set of spec 4.3: accelerator pedal, gear,
global enable, misc/other actuators, action and engine. -/

/-- The `AcceleratorPedalCmd` message fields the encoder reads. -/
structure AccelPedalCmd where
  enable : Bool
  ignore : Bool
  control_type : Nat
  pedal_cmd : ℚ
  torque_cmd : ℚ
  speed_cmd : ℚ
  road_slope : ℚ
  accel_limit : ℚ
  accel_positive_jerk_limit : ℚ
  rolling_counter : ℚ
  deriving DecidableEq

/-- `recvAcceleratorPedalCmd` (lines 1154-1204): zero all signals; when
the system is enabled, select the payload shape by control mode and mirror
the command's enable flag; the rolling counter and the ignore-driver flag
are both set outside the enabled guard. -/
def encodeAccelPedal (en : Bool) (m : AccelPedalCmd) : AccelPdlFrame :=
  let f0 := neutralAccelPdlFrame
  let f1 :=
    if en then
      let fa :=
        if m.control_type = OPEN_LOOP then
          { f0 with reqType := 0, pdlReq := m.pedal_cmd }
        else if m.control_type = CLOSED_LOOP_ACTUATOR then
          { f0 with reqType := 1, pcntTorqueReq := m.torque_cmd }
        else if m.control_type = CLOSED_LOOP_VEHICLE then
          { f0 with
            reqType := 2, speedReq := m.speed_cmd,
            roadSlope := m.road_slope, accelLim := m.accel_limit,
            posJerkLim := m.accel_positive_jerk_limit }
        else { f0 with reqType := 0 }
      if m.enable then { fa with enblReq := 1 } else fa
    else f0
  let f2 := { f1 with rollingCntr := m.rolling_counter }
  if m.ignore then { f2 with ignoreOvrd := 1 } else f2

/-- Signals of the `AKit_PrndRequest` message (the gear command encoder's
message, distinct from the timer's `AKit_GearRequest`). -/
structure PrndFrame where
  ctrlEnblReq : ℚ
  stateReq : ℚ
  checksum : ℚ
  rollingCntr : ℚ
  deriving DecidableEq

def neutralPrndFrame : PrndFrame :=
  { ctrlEnblReq := 0, stateReq := 0, checksum := 0, rollingCntr := 0 }

/-- The `GearCmd` message fields the encoder reads. -/
structure GearCmdMsg where
  enable : Bool
  gear : ℚ
  rolling_counter : ℚ
  deriving DecidableEq

/-- `recvGearCmd` (lines 1266-1288): zero the signals; when the system is
enabled, mirror the enable flag and pass the requested gear state; the
rolling counter is copied outside the guard. -/
def encodeGear (en : Bool) (m : GearCmdMsg) : PrndFrame :=
  let f0 := neutralPrndFrame
  let f1 :=
    if en then
      let fa := if m.enable then { f0 with ctrlEnblReq := 1 } else f0
      { fa with stateReq := m.gear }
    else f0
  { f1 with rollingCntr := m.rolling_counter }

/-- Signals of the `AKit_GlobalEnbl` message. -/
structure GlobalEnblFrame where
  rollingCntr : ℚ
  byWireEnblReq : ℚ
  enblJoystickLimits : ℚ
  softwareBuildNumber : ℚ
  checksum : ℚ
  deriving DecidableEq

def neutralGlobalEnblFrame : GlobalEnblFrame :=
  { rollingCntr := 0, byWireEnblReq := 0, enblJoystickLimits := 0,
    softwareBuildNumber := 0, checksum := 0 }

/-- The `GlobalEnableCmd` message fields the encoder reads. -/
structure GlobalEnableCmd where
  global_enable : Bool
  enable_joystick_limits : Bool
  ecu_build_number : ℚ
  rolling_counter : ℚ
  deriving DecidableEq

/-- `recvGlobalEnableCmd` (lines 1290-1318): zero all signals; when the
system is enabled, mirror the two request flags and pass the build number;
the rolling counter is copied outside the guard. -/
def encodeGlobalEnable (en : Bool) (m : GlobalEnableCmd) : GlobalEnblFrame :=
  let f0 := neutralGlobalEnblFrame
  let f1 :=
    if en then
      let fa := if m.global_enable then { f0 with byWireEnblReq := 1 } else f0
      let fb :=
        if m.enable_joystick_limits then { fa with enblJoystickLimits := 1 }
        else fa
      { fb with softwareBuildNumber := m.ecu_build_number }
    else f0
  { f1 with rollingCntr := m.rolling_counter }

/-- Signals of the `AKit_OtherActuators` message. -/
structure MiscFrame where
  turnSignalReq : ℚ
  rightRearDoorReq : ℚ
  highBeamReq : ℚ
  frontWiperReq : ℚ
  rearWiperReq : ℚ
  ignitionReq : ℚ
  leftRearDoorReq : ℚ
  liftgateDoorReq : ℚ
  blockBasicCruiseCtrlBtns : ℚ
  blockAdapCruiseCtrlBtns : ℚ
  blockTurnSigStalkInpts : ℚ
  otherChecksum : ℚ
  hornReq : ℚ
  lowBeamReq : ℚ
  doorLockReq : ℚ
  runningLightsReq : ℚ
  otherLightsReq : ℚ
  modeLightRed : ℚ
  modeLightYellow : ℚ
  modeLightGreen : ℚ
  modeLightBlue : ℚ
  diffLock : ℚ
  rollingCntr : ℚ
  deriving DecidableEq

def neutralMiscFrame : MiscFrame :=
  { turnSignalReq := 0, rightRearDoorReq := 0, highBeamReq := 0,
    frontWiperReq := 0, rearWiperReq := 0, ignitionReq := 0,
    leftRearDoorReq := 0, liftgateDoorReq := 0,
    blockBasicCruiseCtrlBtns := 0, blockAdapCruiseCtrlBtns := 0,
    blockTurnSigStalkInpts := 0, otherChecksum := 0, hornReq := 0,
    lowBeamReq := 0, doorLockReq := 0, runningLightsReq := 0,
    otherLightsReq := 0, modeLightRed := 0, modeLightYellow := 0,
    modeLightGreen := 0, modeLightBlue := 0, diffLock := 0,
    rollingCntr := 0 }

/-- The `MiscCmd` message fields the encoder reads. -/
structure MiscCmd where
  ignition_cmd : ℚ
  horn_cmd : ℚ
  diff_lock : ℚ
  turn_signal_cmd : ℚ
  high_beam_cmd : ℚ
  low_beam_cmd : ℚ
  running_lights : ℚ
  other_lights : ℚ
  mode_light_red : ℚ
  mode_light_yellow : ℚ
  mode_light_green : ℚ
  mode_light_blue : ℚ
  front_wiper_cmd : ℚ
  rear_wiper_cmd : ℚ
  door_request_right_rear : ℚ
  door_request_left_rear : ℚ
  door_request_lift_gate : ℚ
  door_lock_cmd : ℚ
  block_standard_cruise_buttons : ℚ
  block_adaptive_cruise_buttons : ℚ
  block_turn_signal_stalk : ℚ
  rolling_counter : ℚ
  deriving DecidableEq

/-- `recvMiscCmd` (lines 1320-1387): zero the 22 listed signals; when the
system is enabled, copy every actuator request from the command; the
rolling counter (not in the zeroed list, but always overwritten) is copied
outside the guard. -/
def encodeMisc (en : Bool) (m : MiscCmd) : MiscFrame :=
  let f0 := neutralMiscFrame
  let f1 :=
    if en then
      { f0 with
        ignitionReq := m.ignition_cmd, hornReq := m.horn_cmd,
        diffLock := m.diff_lock, turnSignalReq := m.turn_signal_cmd,
        highBeamReq := m.high_beam_cmd, lowBeamReq := m.low_beam_cmd,
        runningLightsReq := m.running_lights,
        otherLightsReq := m.other_lights, modeLightRed := m.mode_light_red,
        modeLightYellow := m.mode_light_yellow,
        modeLightGreen := m.mode_light_green,
        modeLightBlue := m.mode_light_blue,
        frontWiperReq := m.front_wiper_cmd, rearWiperReq := m.rear_wiper_cmd,
        rightRearDoorReq := m.door_request_right_rear,
        leftRearDoorReq := m.door_request_left_rear,
        liftgateDoorReq := m.door_request_lift_gate,
        doorLockReq := m.door_lock_cmd,
        blockBasicCruiseCtrlBtns := m.block_standard_cruise_buttons,
        blockAdapCruiseCtrlBtns := m.block_adaptive_cruise_buttons,
        blockTurnSigStalkInpts := m.block_turn_signal_stalk }
    else f0
  { f1 with rollingCntr := m.rolling_counter }

/-- Signals of the `AKit_ActionRequest` message. -/
structure ActionFrame where
  checksum : ℚ
  ctrlEnblReq : ℚ
  vehStopReq : ℚ
  emergencyBrkReq : ℚ
  rollingCntr : ℚ
  deriving DecidableEq

def neutralActionFrame : ActionFrame :=
  { checksum := 0, ctrlEnblReq := 0, vehStopReq := 0, emergencyBrkReq := 0,
    rollingCntr := 0 }

/-- The `ActionCmd` message fields the encoder reads. -/
structure ActionCmd where
  enable : Bool
  vehicle_stop : ℚ
  emergency_brake : ℚ
  rolling_counter : ℚ
  deriving DecidableEq

/-- `recvActionCmd` (lines 1389-1413): zero all signals; populate only
when the system and the command are both enabled; the rolling counter is
copied outside the guard. -/
def encodeAction (en : Bool) (m : ActionCmd) : ActionFrame :=
  let f0 := neutralActionFrame
  let f1 :=
    if en && m.enable then
      { f0 with
        ctrlEnblReq := 1, vehStopReq := m.vehicle_stop,
        emergencyBrkReq := m.emergency_brake }
    else f0
  { f1 with rollingCntr := m.rolling_counter }

/-- Modelled from the spec: `EngineControlMode` constants (`NONE`,
`KEY_SWITCH`) from the message package outside `src/`. -/
def ENGINE_NONE : Nat := 0
def ENGINE_KEY_SWITCH : Nat := 1

/-- The `EngineCmd` message fields the encoder reads. -/
structure EngineCmd where
  enable : Bool
  control_type : Nat
  mode_type : ℚ
  rolling_counter : ℚ
  deriving DecidableEq

/-- `recvEngineCmd` (lines 1519-1551): zero all signals; populate only
when the system and the command are both enabled, with the key-switch mode
selected by control type and an unrecognized mode falling back to NONE;
the rolling counter is copied outside the guard. -/
def encodeEngine (en : Bool) (m : EngineCmd) : EngineFrame :=
  let f0 := neutralEngineFrame
  let f1 :=
    if en && m.enable then
      let fa :=
        if m.control_type = ENGINE_KEY_SWITCH then
          { f0 with reqType := (m.control_type : ℚ), modeReq := m.mode_type }
        else { f0 with reqType := (ENGINE_NONE : ℚ) }
      { fa with ctrlEnblReq := 1 }
    else f0
  { f1 with rollingCntr := m.rolling_counter }

/-! ## Report decoders

An inbound frame, once bound to its message definition, is read through
named signals; the model carries the decoded signal values directly,
together with the frame's declared length `dlc`.  Each handler first
compares `dlc` with the message's defined length (`GetDlc()`, a property
of the external DBC file, carried as a parameter `defDlc`). -/

/-- Decoded signal values of an inbound brake report frame. -/
structure BrakeRptFrame where
  dlc : Nat
  faultSig : ℚ
  driverActivity : ℚ
  pdlDriverInput : ℚ
  pdlPosnFdbck : ℚ
  enabledSig : ℚ
  rollingCntr : ℚ
  pcntTorqueActual : ℚ
  interventionActv : ℚ
  interventionReady : ℚ
  parkingBrkStatus : ℚ
  ctrlType : ℚ
  deriving DecidableEq

/-- The published `BrakeReport` object. -/
structure BrakeReport where
  fault_brake_system : Bool
  pedal_position : ℚ
  pedal_output : ℚ
  enabledRpt : Bool
  driver_activity : Bool
  rolling_counter : ℚ
  brake_torque_actual : ℚ
  intervention_active : Bool
  intervention_ready : Bool
  parking_brake_status : ℚ
  control_type : ℚ
  deriving DecidableEq

/-- `recvBrakeRpt` (lines 335-385): drop short frames; otherwise route the
brake fault to `setFault`, the watchdog (two-argument overload, src is the
fault bit), and driver activity to `setOverride`, then publish the report
built from the same frame. -/
def recvBrakeRpt (defDlc : Nat) (st : DbwState) (f : BrakeRptFrame) :
    DbwState × List Bool × Option BrakeReport :=
  if defDlc ≤ f.dlc then
    let brakeSystemFault := toB f.faultSig
    let driverActivity := toB f.driverActivity
    let r1 := setFault FAULT_BRAKE brakeSystemFault st
    let r2 := faultWatchdog2 brakeSystemFault (if brakeSystemFault then 1 else 0) r1.1
    let r3 := setOverride OVR_BRAKE driverActivity r2.1
    let rpt : BrakeReport :=
      { fault_brake_system := brakeSystemFault,
        pedal_position := f.pdlDriverInput,
        pedal_output := f.pdlPosnFdbck,
        enabledRpt := toB f.enabledSig,
        driver_activity := driverActivity,
        rolling_counter := f.rollingCntr,
        brake_torque_actual := f.pcntTorqueActual,
        intervention_active := toB f.interventionActv,
        intervention_ready := toB f.interventionReady,
        parking_brake_status := f.parkingBrkStatus,
        control_type := f.ctrlType }
    (r3.1, r1.2 ++ r2.2 ++ r3.2, some rpt)
  else (st, [], none)

/-- Decoded signal values of an inbound accelerator-pedal report frame. -/
structure AccelRptFrame where
  dlc : Nat
  faultCh1 : ℚ
  faultCh2 : ℚ
  faultSig : ℚ
  driverActivity : ℚ
  pdlDriverInput : ℚ
  pdlPosnFdbck : ℚ
  enabledSig : ℚ
  ignoreDriver : ℚ
  pcntTorqueActual : ℚ
  ctrlType : ℚ
  rollingCntr : ℚ
  deriving DecidableEq

/-- The published `AcceleratorPedalReport` object. -/
structure AccelPedalReport where
  pedal_input : ℚ
  pedal_output : ℚ
  enabledRpt : Bool
  ignore_driver : Bool
  driver_activity : Bool
  torque_actual : ℚ
  control_type : ℚ
  rolling_counter : ℚ
  fault_accel_pedal_system : Bool
  fault_ch1 : Bool
  fault_ch2 : Bool
  deriving DecidableEq

/-- `recvAccelPedalRpt` (lines 387-437): drop short frames; route the AND
of the two channel faults to `setFault(FAULT_ACCEL, ·)`, the separate
system-fault signal to the watchdog, driver activity to `setOverride`,
then publish the report built from the same frame. -/
def recvAccelPedalRpt (defDlc : Nat) (st : DbwState) (f : AccelRptFrame) :
    DbwState × List Bool × Option AccelPedalReport :=
  if defDlc ≤ f.dlc then
    let faultCh1 := toB f.faultCh1
    let faultCh2 := toB f.faultCh2
    let accelPdlSystemFault := toB f.faultSig
    let r1 := setFault FAULT_ACCEL (faultCh1 && faultCh2) st
    let r2 := faultWatchdog2 accelPdlSystemFault
      (if accelPdlSystemFault then 1 else 0) r1.1
    let r3 := setOverride OVR_ACCEL (toB f.driverActivity) r2.1
    let rpt : AccelPedalReport :=
      { pedal_input := f.pdlDriverInput,
        pedal_output := f.pdlPosnFdbck,
        enabledRpt := toB f.enabledSig,
        ignore_driver := toB f.ignoreDriver,
        driver_activity := toB f.driverActivity,
        torque_actual := f.pcntTorqueActual,
        control_type := f.ctrlType,
        rolling_counter := f.rollingCntr,
        fault_accel_pedal_system := accelPdlSystemFault,
        fault_ch1 := faultCh1,
        fault_ch2 := faultCh2 }
    (r3.1, r1.2 ++ r2.2 ++ r3.2, some rpt)
  else (st, [], none)

/-- Decoded signal values of an inbound gear report frame. -/
structure GearRptFrame where
  dlc : Nat
  driverActivity : ℚ
  ctrlEnabled : ℚ
  stateActual : ℚ
  stateDes : ℚ
  faultSig : ℚ
  rejectSig : ℚ
  mismatchFlash : ℚ
  rollingCntr : ℚ
  deriving DecidableEq

/-- The published `GearReport` object. -/
structure GearReport where
  enabledRpt : Bool
  state_actual : ℚ
  state_desired : ℚ
  driver_activity : Bool
  gear_select_system_fault : Bool
  rejectRpt : Bool
  gear_mismatch_flash : Bool
  rolling_counter : ℚ
  deriving DecidableEq

/-- `recvGearRpt` (lines 494-532): the length guard compares `dlc` against
the literal 1 (not the message's defined length); accepted frames route
driver activity to `setOverride(OVR_GEAR, ·)` and publish the report. -/
def recvGearRpt (_defDlc : Nat) (st : DbwState) (f : GearRptFrame) :
    DbwState × List Bool × Option GearReport :=
  if 1 ≤ f.dlc then
    let driverActivity := toB f.driverActivity
    let r1 := setOverride OVR_GEAR driverActivity st
    let rpt : GearReport :=
      { enabledRpt := toB f.ctrlEnabled,
        state_actual := f.stateActual,
        state_desired := f.stateDes,
        driver_activity := driverActivity,
        gear_select_system_fault := toB f.faultSig,
        rejectRpt := toB f.rejectSig,
        gear_mismatch_flash := toB f.mismatchFlash,
        rolling_counter := f.rollingCntr }
    (r1.1, r1.2, some rpt)
  else (st, [], none)

/-! ## VIN reassembly (lines 619-650) -/

/-- Modelled from the spec: the three multiplex-selector constants
`VIN_MUX_VIN0/1/2` live in the missing header; only their distinctness
matters. -/
def VIN_MUX_VIN0 : ℚ := 0
def VIN_MUX_VIN1 : ℚ := 1
def VIN_MUX_VIN2 : ℚ := 2

/-- Decoded signal values of an inbound VIN frame: the multiplex selector
and the seventeen digit signals (characters carried as signal values). -/
structure VinFrame where
  dlc : Nat
  mux : ℚ
  d01 : ℚ
  d02 : ℚ
  d03 : ℚ
  d04 : ℚ
  d05 : ℚ
  d06 : ℚ
  d07 : ℚ
  d08 : ℚ
  d09 : ℚ
  d10 : ℚ
  d11 : ℚ
  d12 : ℚ
  d13 : ℚ
  d14 : ℚ
  d15 : ℚ
  d16 : ℚ
  d17 : ℚ
  deriving DecidableEq

/-- `recvVinRpt`: phase 0 and phase 1 each append seven digit characters
to the accumulating `vin_` buffer; phase 2 appends three and publishes the
whole buffer.  Returns the new buffer and the published strings. -/
def recvVinRpt (defDlc : Nat) (buf : List ℚ) (f : VinFrame) :
    List ℚ × List (List ℚ) :=
  if defDlc ≤ f.dlc then
    if f.mux = VIN_MUX_VIN0 then
      (buf ++ [f.d01, f.d02, f.d03, f.d04, f.d05, f.d06, f.d07], [])
    else if f.mux = VIN_MUX_VIN1 then
      (buf ++ [f.d08, f.d09, f.d10, f.d11, f.d12, f.d13, f.d14], [])
    else if f.mux = VIN_MUX_VIN2 then
      let b := buf ++ [f.d15, f.d16, f.d17]
      (b, [b])
    else (buf, [])
  else (buf, [])

/-- Feed a sequence of VIN frames through `recvVinRpt`, collecting every
published string. -/
def runVin (defDlc : Nat) (buf : List ℚ) :
    List VinFrame → List ℚ × List (List ℚ)
  | [] => (buf, [])
  | f :: fs =>
    let r := recvVinRpt defDlc buf f
    let rest := runVin defDlc r.1 fs
    (rest.1, r.2 ++ rest.2)

/-! ## Kinematics projector (lines 1766-1785)

The shared joint-state record: six joints (four wheels, two steer).  The
record stores the full timestamp, but the handler computes `dt` as
`stamp.seconds() - joint_state_.header.stamp.sec`, i.e. against the
integer-seconds field of the stored stamp. -/

def JOINT_FL : Nat := 0
def JOINT_FR : Nat := 1
def JOINT_RL : Nat := 2
def JOINT_RR : Nat := 3
def JOINT_SL : Nat := 4
def JOINT_SR : Nat := 5
def JOINT_COUNT : Nat := 6

/-- The shared joint-state record (timestamp in seconds, positions in
radians, velocities in radians per second). -/
structure JointSt where
  stamp : ℚ
  pos : List ℚ
  vel : List ℚ
  deriving DecidableEq

/-- The four wheel angular velocities of a `WheelSpeedReport`. -/
structure WheelSpeeds where
  front_left : ℚ
  front_right : ℚ
  rear_left : ℚ
  rear_right : ℚ
  deriving DecidableEq

/-- `publishJointStates(stamp, WheelSpeedReport)`: always store the four
wheel velocities; when `dt` (new stamp minus the integer-seconds part of
the stored stamp) is below 0.5, advance each wheel joint position by
`velocity * dt` wrapped with `fmod` by `2 * M_PI`; restamp and publish
(second component true iff the record was published). -/
def publishJointStatesWheels (t : ℚ) (w : WheelSpeeds) (js : JointSt) :
    JointSt × Bool :=
  let dt : ℚ := t - ((ratTrunc js.stamp : ℤ) : ℚ)
  let vel := (((js.vel.set JOINT_FL w.front_left).set JOINT_FR
    w.front_right).set JOINT_RL w.rear_left).set JOINT_RR w.rear_right
  let pos :=
    if dt < 1 / 2 then
      let p0 := js.pos.set JOINT_FL
        (cfmod (js.pos.getD JOINT_FL 0 + dt * vel.getD JOINT_FL 0) (2 * piD))
      let p1 := p0.set JOINT_FR
        (cfmod (p0.getD JOINT_FR 0 + dt * vel.getD JOINT_FR 0) (2 * piD))
      let p2 := p1.set JOINT_RL
        (cfmod (p1.getD JOINT_RL 0 + dt * vel.getD JOINT_RL 0) (2 * piD))
      p2.set JOINT_RR
        (cfmod (p2.getD JOINT_RR 0 + dt * vel.getD JOINT_RR 0) (2 * piD))
    else js.pos
  ({ stamp := t, pos := pos, vel := vel }, true)

/-- A second definition written to the claim's words, for comparison with
the code's behaviour: identical except that `dt` is the elapsed time since
the record's last (full) timestamp. -/
def claimJointStatesWheels (t : ℚ) (w : WheelSpeeds) (js : JointSt) :
    JointSt × Bool :=
  let dt : ℚ := t - js.stamp
  let vel := (((js.vel.set JOINT_FL w.front_left).set JOINT_FR
    w.front_right).set JOINT_RL w.rear_left).set JOINT_RR w.rear_right
  let pos :=
    if dt < 1 / 2 then
      let p0 := js.pos.set JOINT_FL
        (cfmod (js.pos.getD JOINT_FL 0 + dt * vel.getD JOINT_FL 0) (2 * piD))
      let p1 := p0.set JOINT_FR
        (cfmod (p0.getD JOINT_FR 0 + dt * vel.getD JOINT_FR 0) (2 * piD))
      let p2 := p1.set JOINT_RL
        (cfmod (p1.getD JOINT_RL 0 + dt * vel.getD JOINT_RL 0) (2 * piD))
      p2.set JOINT_RR
        (cfmod (p2.getD JOINT_RR 0 + dt * vel.getD JOINT_RR 0) (2 * piD))
    else js.pos
  ({ stamp := t, pos := pos, vel := vel }, true)

/-! ## Basic lemmas about the arbitration engine -/

theorem publishDbwEnabled_active (s : DbwState) :
    ((publishDbwEnabled s).1).active = s.active := by
  by_cases h : s.prev = enabled s <;> simp [publishDbwEnabled, h]

theorem publishDbwEnabled_faults (s : DbwState) :
    ((publishDbwEnabled s).1).faults = s.faults := by
  by_cases h : s.prev = enabled s <;> simp [publishDbwEnabled, h]

theorem publishDbwEnabled_overrides (s : DbwState) :
    ((publishDbwEnabled s).1).overrides = s.overrides := by
  by_cases h : s.prev = enabled s <;> simp [publishDbwEnabled, h]

theorem setFault_active_of_disabled (i : Nat) (v : Bool) (s : DbwState)
    (h : s.active = false) : ((setFault i v s).1).active = false := by
  unfold setFault
  split
  · rw [publishDbwEnabled_active]
    simp [enabled, h]
  · exact h

theorem setOverride_active_of_disabled (i : Nat) (v : Bool) (s : DbwState)
    (h : s.active = false) : ((setOverride i v s).1).active = false := by
  unfold setOverride
  split
  · rw [publishDbwEnabled_active]
    simp [enabled, h]
  · exact h

theorem disableSystem_active (s : DbwState) :
    ((disableSystem s).1).active = false := by
  unfold disableSystem
  split
  · rw [publishDbwEnabled_active]
  · simp_all

theorem faultAny_iff (s : DbwState) :
    faultAny s = true ↔ assertedFaults s ≠ [] := by
  unfold faultAny assertedFaults
  constructor
  · intro h hnil
    rcases List.any_eq_true.mp h with ⟨i, hi, hp⟩
    have : i ∈ List.filter (fun i => s.faults.getD i false)
        (List.range NUM_SERIOUS_FAULTS) := List.mem_filter.mpr ⟨hi, hp⟩
    rw [hnil] at this
    exact absurd this (List.not_mem_nil i)
  · intro h
    rcases List.exists_mem_of_ne_nil _ h with ⟨i, hi⟩
    rcases List.mem_filter.mp hi with ⟨hr, hp⟩
    exact List.any_eq_true.mpr ⟨i, hr, hp⟩

/-- C1: whenever `setFault` or `setOverride` is invoked with an in-range
identifier and value true while the system is enabled, `isEnabled()` is
false by the time the call returns and any state-change event emitted from
that call already carries the disabled value; and from a disabled state,
no arbitration operation other than an accepted explicit enable request
ever makes `isEnabled()` true. -/
theorem C1_synchronous_cutoff :
    (∀ (s : DbwState) (i : Nat), i < NUM_SERIOUS_FAULTS → enabled s = true →
      enabled (setFault i true s).1 = false ∧
        ∀ b ∈ (setFault i true s).2, b = false) ∧
    (∀ (s : DbwState) (i : Nat), i < NUM_OVERRIDES → enabled s = true →
      enabled (setOverride i true s).1 = false ∧
        ∀ b ∈ (setOverride i true s).2, b = false) ∧
    (∀ (s : DbwState) (op : ArbOp), enabled s = false →
      enabled (op.apply s) = true →
      op = ArbOp.enableReq ∧ faultAny s = false) := by
  refine ⟨?_, ?_, ?_⟩
  · intro s i hi hen
    have hact : s.active = true := hen
    by_cases hp : s.prev <;>
      simp [setFault, publishDbwEnabled, enabled, hact, hi, hp]
  · intro s i hi hen
    have hact : s.active = true := hen
    by_cases hp : s.prev <;>
      simp [setOverride, publishDbwEnabled, enabled, hact, hi, hp]
  · intro s op hdis hen
    have hact : s.active = false := hdis
    cases op with
    | enableReq =>
      refine ⟨rfl, ?_⟩
      by_cases hf : faultAny s
      · exfalso
        simp [ArbOp.apply, enableSystem, enabled, hact, hf] at hen
      · simpa using hf
    | disableReq =>
      exfalso
      have := disableSystem_active s
      simp [ArbOp.apply, enabled] at hen
      rw [hen] at this
      exact absurd this (by simp)
    | faultOp i v =>
      exfalso
      have := setFault_active_of_disabled i v s hact
      simp [ArbOp.apply, enabled] at hen
      rw [hen] at this
      exact absurd this (by simp)
    | overrideOp i v =>
      exfalso
      have := setOverride_active_of_disabled i v s hact
      simp [ArbOp.apply, enabled] at hen
      rw [hen] at this
      exact absurd this (by simp)
    | publishOp =>
      exfalso
      have := publishDbwEnabled_active s
      simp [ArbOp.apply, enabled] at hen
      rw [hen] at this
      rw [hact] at this
      exact absurd this (by simp)

/-- Witness for C1 at concrete inputs: a brake fault asserted while
enabled disables the system within the call, and the accepted-enable side
condition holds at the initial (fault-free) state. -/
theorem C1_synchronous_cutoff_witness :
    enabled (setFault FAULT_BRAKE true
      { initState with active := true, prev := true }).1 = false ∧
    faultAny initState = false :=
  ⟨(C1_synchronous_cutoff.1 { initState with active := true, prev := true }
      FAULT_BRAKE (by decide) (by decide)).1,
   ((C1_synchronous_cutoff.2.2 initState ArbOp.enableReq (by decide)
      (by decide)).2)⟩

/-- C2: an enable request is a no-op when already active; when disabled it
is rejected iff at least one serious fault is currently asserted, in which
case the state is unchanged and each asserted serious fault is logged
individually (by its index into the `FAULT_SYSTEM` name table); when no
serious fault is asserted the system becomes active. -/
theorem C2_enable_request :
    ∀ s : DbwState,
      (s.active = false →
        (faultAny s = true →
          (enableSystem s).1 = s ∧ (enableSystem s).2.1 = [] ∧
          (enableSystem s).2.2 = assertedFaults s ∧ assertedFaults s ≠ []) ∧
        (faultAny s = false →
          ((enableSystem s).1).active = true ∧ (enableSystem s).2.2 = [])) ∧
      (s.active = true → enableSystem s = (s, [], [])) ∧
      (∀ i, i ∈ assertedFaults s ↔
        (i < NUM_SERIOUS_FAULTS ∧ s.faults.getD i false = true)) := by
  intro s
  refine ⟨?_, ?_, ?_⟩
  · intro hact
    constructor
    · intro hf
      refine ⟨?_, ?_, ?_, (faultAny_iff s).mp hf⟩
      · simp [enableSystem, hact, hf]
      · simp [enableSystem, hact, hf]
      · simp [enableSystem, hact, hf]
    · intro hf
      constructor
      · have h1 : (enableSystem s).1 =
            (publishDbwEnabled { s with active := true }).1 := by
          simp [enableSystem, hact, hf]
        rw [h1, publishDbwEnabled_active]
      · simp [enableSystem, hact, hf]
  · intro hact
    simp [enableSystem, hact]
  · intro i
    unfold assertedFaults
    rw [List.mem_filter, List.mem_range]

/-- Witness for C2 at concrete inputs: with the accelerator fault set the
request is rejected and logged; from the clean initial state it is
accepted. -/
theorem C2_enable_request_witness :
    (enableSystem { initState with
      faults := (List.replicate NUM_FAULTS false).set FAULT_ACCEL true }).1 =
      { initState with
        faults := (List.replicate NUM_FAULTS false).set FAULT_ACCEL true } ∧
    ((enableSystem initState).1).active = true := by
  constructor
  · exact ((C2_enable_request _).1 (by decide)).1 (by decide) |>.1
  · exact ((C2_enable_request initState).1 (by decide)).2 (by decide) |>.1

/-- C4: the enabled-state publication is edge-triggered: it fires iff the
active flag differs from the last-published shadow, emits exactly the new
value when it fires, and leaves the shadow equal to the active flag; two
consecutive `setFault(i, true)` calls from a consistent enabled state
publish exactly one event; and the constructor's shadow initialization
makes the very first publish fire. -/
theorem C4_edge_triggered :
    (∀ s : DbwState,
      ((publishDbwEnabled s).2.2 = true ↔ s.prev ≠ enabled s) ∧
      ((publishDbwEnabled s).1).prev = enabled s ∧
      (publishDbwEnabled s).2.1 =
        (if s.prev ≠ enabled s then [enabled s] else [])) ∧
    (∀ (s : DbwState) (i : Nat), i < NUM_SERIOUS_FAULTS →
      s.active = true → s.prev = true →
      ((setFault i true s).2 ++
        (setFault i true (setFault i true s).1).2).length = 1) ∧
    (publishDbwEnabled initState).2.2 = true := by
  refine ⟨?_, ?_, by decide⟩
  · intro s
    refine ⟨?_, ?_, ?_⟩ <;>
      · by_cases h : s.prev = enabled s <;> simp [publishDbwEnabled, h]
  · intro s i hi hact hprev
    simp [setFault, publishDbwEnabled, enabled, hact, hprev, hi]

/-- Witness for C4 at concrete inputs: an enabled, consistent state
publishes exactly once across a double fault assertion, and the fire
condition is exercised at the initial state. -/
theorem C4_edge_triggered_witness :
    ((setFault FAULT_STEER true { initState with active := true, prev := true }).2 ++
      (setFault FAULT_STEER true
        (setFault FAULT_STEER true
          { initState with active := true, prev := true }).1).2).length = 1 ∧
    ((publishDbwEnabled initState).1).prev = enabled initState :=
  ⟨C4_edge_triggered.2.1 { initState with active := true, prev := true }
      FAULT_STEER (by decide) (by decide) (by decide),
   (C4_edge_triggered.1 initState).2.1⟩

/-- C3 counterexample: a brake command whose own enable flag is false,
encoded while the system is enabled, with closed-loop-actuator mode and
torque 50, produces a frame that is not the neutral all-zero encoding
(the torque-request signal carries 50). -/
theorem C3_counterexample :
    (encodeBrake true
      { enable := false, control_type := CLOSED_LOOP_ACTUATOR, pedal_cmd := 0,
        torque_cmd := 50, decel_limit := 0, decel_negative_jerk_limit := 0,
        park_brake_status := 0, rolling_counter := 0 }).pcntTorqueReq = 50 ∧
    encodeBrake true
      { enable := false, control_type := CLOSED_LOOP_ACTUATOR, pedal_cmd := 0,
        torque_cmd := 50, decel_limit := 0, decel_negative_jerk_limit := 0,
        park_brake_status := 0, rolling_counter := 0 } ≠ neutralBrakeFrame := by
  decide

/-- C3 (amended): for every command encoder (brake, accelerator pedal,
steering, gear, global enable, misc, action, articulation, dump bed,
engine), when the system is not enabled the emitted frame equals the
neutral all-zero encoding except the rolling-counter signal (copied from
the command) and, for the accelerator-pedal and steering encoders, the
ignore-driver-override flag (also copied from the command, outside the
enabled guard).  When the system is enabled, the command's own enable flag
being false neutralizes the frame only for the action, articulation,
dump-bed and engine encoders (guard `enabled() && msg.enable`), again up
to the rolling counter; for the remaining encoders enable=false does not
neutralize the frame (the counterexample shows brake still encoding a
torque request; brake's control-enable signal does stay zero, as the last
conjunct states). -/
theorem C3_disabled_neutral_frames :
    (∀ m : BrakeCmd, encodeBrake false m =
      { neutralBrakeFrame with rollingCntr := m.rolling_counter }) ∧
    (∀ m : AccelPedalCmd, encodeAccelPedal false m =
      { neutralAccelPdlFrame with
        ignoreOvrd := if m.ignore then 1 else 0,
        rollingCntr := m.rolling_counter }) ∧
    (∀ (maxSteer : ℚ) (m : SteeringCmd), encodeSteering maxSteer false m =
      { neutralSteeringFrame with
        ignoreOvrd := if m.ignore then 1 else 0,
        rollingCntr := m.rolling_counter }) ∧
    (∀ m : GearCmdMsg, encodeGear false m =
      { neutralPrndFrame with rollingCntr := m.rolling_counter }) ∧
    (∀ m : GlobalEnableCmd, encodeGlobalEnable false m =
      { neutralGlobalEnblFrame with rollingCntr := m.rolling_counter }) ∧
    (∀ m : MiscCmd, encodeMisc false m =
      { neutralMiscFrame with rollingCntr := m.rolling_counter }) ∧
    (∀ (en : Bool) (m : ActionCmd), (en && m.enable) = false →
      encodeAction en m =
        { neutralActionFrame with rollingCntr := m.rolling_counter }) ∧
    (∀ (maxArtic : ℚ) (en : Bool) (m : ArticulationCmd),
      (en && m.enable) = false →
      encodeArticulation maxArtic en m =
        { neutralArticulationFrame with rollingCntr := m.rolling_counter }) ∧
    (∀ (maxDump : ℚ) (en : Bool) (m : DumpBedCmd),
      (en && m.enable) = false →
      encodeDumpBed maxDump en m =
        { neutralDumpBedFrame with rollingCntr := m.rolling_counter }) ∧
    (∀ (en : Bool) (m : EngineCmd), (en && m.enable) = false →
      encodeEngine en m =
        { neutralEngineFrame with rollingCntr := m.rolling_counter }) ∧
    (∀ (en : Bool) (m : BrakeCmd), m.enable = false →
      (encodeBrake en m).ctrlEnblReq = 0) := by
  refine ⟨?_, ?_, ?_, ?_, ?_, ?_, ?_, ?_, ?_, ?_, ?_⟩
  · intro m
    rfl
  · intro m
    by_cases hi : m.ignore <;>
      simp [encodeAccelPedal, hi, neutralAccelPdlFrame]
  · intro maxSteer m
    by_cases hi : m.ignore <;>
      simp [encodeSteering, hi, neutralSteeringFrame]
  · intro m
    rfl
  · intro m
    rfl
  · intro m
    rfl
  · intro en m h
    simp [encodeAction, h]
  · intro maxArtic en m h
    simp [encodeArticulation, h]
  · intro maxDump en m h
    simp [encodeDumpBed, h]
  · intro en m h
    simp [encodeEngine, h]
  · intro en m h
    cases en with
    | false => rfl
    | true =>
      have h2 : ¬(m.enable = true) := by simp [h]
      simp only [encodeBrake, if_neg h2]
      split_ifs <;> rfl

/-- Witness for the amended C3 at concrete inputs, one per
hypothesis-bearing conjunct. -/
theorem C3_disabled_neutral_frames_witness :
    encodeAction true
      { enable := false, vehicle_stop := 2, emergency_brake := 1,
        rolling_counter := 5 } =
      { neutralActionFrame with rollingCntr := 5 } ∧
    encodeArticulation 30 false
      { enable := true, ignore_driver := 1, control_type := ARTIC_ANGLE,
        angle_cmd := 10, velocity_limit := 9, rolling_counter := 3 } =
      { neutralArticulationFrame with rollingCntr := 3 } ∧
    encodeDumpBed 45 true
      { enable := false, ignore_driver := 1, control_type := DB_ANGLE,
        mode_type := DBM_RAISE, lever_pct := 20, angle_cmd := 10,
        velocity_limit := 9, rolling_counter := 4 } =
      { neutralDumpBedFrame with rollingCntr := 4 } ∧
    encodeEngine false
      { enable := true, control_type := ENGINE_KEY_SWITCH, mode_type := 2,
        rolling_counter := 6 } =
      { neutralEngineFrame with rollingCntr := 6 } ∧
    (encodeBrake true
      { enable := false, control_type := OPEN_LOOP, pedal_cmd := 30,
        torque_cmd := 0, decel_limit := 0, decel_negative_jerk_limit := 0,
        park_brake_status := 0, rolling_counter := 0 }).ctrlEnblReq = 0 :=
  ⟨C3_disabled_neutral_frames.2.2.2.2.2.2.1 true _ (by decide),
   C3_disabled_neutral_frames.2.2.2.2.2.2.2.1 30 false _ (by decide),
   C3_disabled_neutral_frames.2.2.2.2.2.2.2.2.1 45 true _ (by decide),
   C3_disabled_neutral_frames.2.2.2.2.2.2.2.2.2.1 false _ (by decide),
   C3_disabled_neutral_frames.2.2.2.2.2.2.2.2.2.2 true _ (by decide)⟩

/-- C8 counterexample: the claimed transform `clamp(round(|v| / 2), 1, 254)`
does not describe the code: a steering command with zero angle velocity
encodes a zero velocity limit (the claim demands 1, and in particular
never zero), and the articulation encoder copies the commanded limit
through unmodified (500 is encoded as 500, not 250). -/
theorem C8_counterexample :
    (encodeSteering 500 true
      { enable := true, ignore := false, control_type := OPEN_LOOP,
        angle_cmd := 0, angle_velocity := 0, torque_cmd := 0,
        vehicle_curvature_cmd := 0, rolling_counter := 0 }).velocityLim = 0 ∧
    (encodeArticulation 30 true
      { enable := true, ignore_driver := 0, control_type := ARTIC_ANGLE,
        angle_cmd := 0, velocity_limit := 500,
        rolling_counter := 0 }).velocityLimit = 500 ∧
    steerVelLimit 0 = 1 ∧ steerVelLimit 500 = 250 ∧
    (0 : ℚ) ≠ 1 ∧ (500 : ℚ) ≠ 250 := by
  refine ⟨?_, ?_, ?_, ?_, by norm_num, by norm_num⟩
  · norm_num [encodeSteering, OPEN_LOOP, CLOSED_LOOP_ACTUATOR,
      CLOSED_LOOP_VEHICLE, neutralSteeringFrame]
  · norm_num [encodeArticulation, ARTIC_ANGLE, neutralArticulationFrame]
  · norm_num [steerVelLimit, roundHalfAway, ratTrunc, qmax, qmin]
  · norm_num [steerVelLimit, roundHalfAway, ratTrunc, qmax, qmin]

/-- C8 (amended): only the steering encoder applies the transform
`clamp(round(|v| / 2), 1, 254)`, and only when the system is enabled and
the commanded angle velocity is nonzero (then the encoded limit is indeed
never zero); a zero commanded velocity leaves the limit signal zero; the
articulation and dump-bed encoders copy the commanded velocity limit
through unmodified when system and command are enabled. -/
theorem C8_velocity_limit :
    (∀ (maxSteer : ℚ) (m : SteeringCmd), m.angle_velocity ≠ 0 →
      (encodeSteering maxSteer true m).velocityLim =
        steerVelLimit m.angle_velocity ∧
      (encodeSteering maxSteer true m).velocityLim ≠ 0) ∧
    (∀ (maxSteer : ℚ) (m : SteeringCmd), m.angle_velocity = 0 →
      (encodeSteering maxSteer true m).velocityLim = 0) ∧
    (∀ (maxArtic : ℚ) (m : ArticulationCmd), m.enable = true →
      (encodeArticulation maxArtic true m).velocityLimit =
        m.velocity_limit) ∧
    (∀ (maxDump : ℚ) (m : DumpBedCmd), m.enable = true →
      (encodeDumpBed maxDump true m).velocityLimit = m.velocity_limit) := by
  refine ⟨?_, ?_, ?_, ?_⟩
  · intro maxSteer m hv
    have habs : |m.angle_velocity| > 0 := abs_pos.mpr hv
    have hlim : (1 : ℚ) ≤ steerVelLimit m.angle_velocity := by
      unfold steerVelLimit qmax
      split
      · exact le_of_lt (by assumption)
      · exact le_refl 1
    constructor
    · simp only [encodeSteering, habs, if_true]
      split_ifs <;> rfl
    · have h1 : (encodeSteering maxSteer true m).velocityLim =
          steerVelLimit m.angle_velocity := by
        simp only [encodeSteering, habs, if_true]
        split_ifs <;> rfl
      rw [h1]
      intro h0
      rw [h0] at hlim
      norm_num at hlim
  · intro maxSteer m hv
    have habs : ¬(|m.angle_velocity| > 0) := by rw [hv]; simp
    simp only [encodeSteering, habs, if_false]
    split_ifs <;> rfl
  · intro maxArtic m hm
    simp only [encodeArticulation, hm, Bool.and_true, Bool.and_self, if_true]
  · intro maxDump m hm
    simp only [encodeDumpBed, hm, Bool.and_true, Bool.and_self, if_true]

/-- Witness for the amended C8 at concrete inputs. -/
theorem C8_velocity_limit_witness :
    (encodeSteering 500 true
      { enable := true, ignore := false, control_type := OPEN_LOOP,
        angle_cmd := 0, angle_velocity := 17, torque_cmd := 0,
        vehicle_curvature_cmd := 0, rolling_counter := 0 }).velocityLim =
      steerVelLimit 17 ∧
    (encodeDumpBed 45 true
      { enable := true, ignore_driver := 0, control_type := DB_ANGLE,
        mode_type := DBM_RAISE, lever_pct := 20, angle_cmd := 10,
        velocity_limit := 123, rolling_counter := 0 }).velocityLimit = 123 :=
  ⟨(C8_velocity_limit.1 500 _ (by decide)).1,
   C8_velocity_limit.2.2.2 45 _ (by decide)⟩

/-- C5 counterexample: with only the brake override flagged and a residual
torque request of 50 left in the brake message by a previous encode, the
timer re-emits a brake frame that still carries the torque request — not
the neutral all-zero frame, and not the disabled-path encoding (which
zeroes every signal but the rolling counter). -/
theorem C5_counterexample :
    (timerCallback
      { initState with
        overrides := (List.replicate NUM_OVERRIDES false).set OVR_BRAKE true }
      { initCodec with
        brake := { neutralBrakeFrame with
          pcntTorqueReq := 50, ctrlReqType := 1, rollingCntr := 7 } }).2 =
      [OutFrame.brakeF { neutralBrakeFrame with
        pcntTorqueReq := 50, ctrlReqType := 1, rollingCntr := 7 }] ∧
    ({ neutralBrakeFrame with
        pcntTorqueReq := 50, ctrlReqType := 1, rollingCntr := 7 } :
      BrakeFrame) ≠ neutralBrakeFrame ∧
    ({ neutralBrakeFrame with
        pcntTorqueReq := 50, ctrlReqType := 1, rollingCntr := 7 } :
      BrakeFrame) ≠ { neutralBrakeFrame with rollingCntr := 7 } := by
  decide

/-- C5 (amended): the timer acts only while the system is not enabled; on
a tick taken while disabled, exactly the subsystems whose override flag is
set get a frame, in source order; but only the dump-bed and gear frames
are fully neutral (the dump-bed one up to its untouched rolling counter):
the brake, accelerator, steering and engine frames only zero a fixed
subset of signals, leaving the other signals at whatever values the last
encode left in the shared message objects. -/
theorem C5_failsafe_timer :
    ∀ (st : DbwState) (c : CodecState),
      (enabled st = true → timerCallback st c = (c, [])) ∧
      (enabled st = false →
        (timerCallback st c).2 =
          (if st.overrides.getD OVR_BRAKE false then
            [OutFrame.brakeF { c.brake with pedalReq := 0, ctrlEnblReq := 0 }]
          else []) ++
          (if st.overrides.getD OVR_ACCEL false then
            [OutFrame.accelF { c.accel with
              pdlReq := 0, enblReq := 0, ignoreOvrd := 0 }]
          else []) ++
          (if st.overrides.getD OVR_STEER false then
            [OutFrame.steerF { c.steer with
              angleReq := 0, velocityLim := 0, ignoreOvrd := 0, pcntTrqReq := 0 }]
          else []) ++
          (if st.overrides.getD OVR_GEAR false then
            [OutFrame.gearF neutralGearReqFrame]
          else []) ++
          (if st.overrides.getD OVR_DUMP_BED false then
            [OutFrame.dumpBedF { neutralDumpBedFrame with
              rollingCntr := c.dumpBed.rollingCntr }]
          else []) ++
          (if st.overrides.getD OVR_ENGINE false then
            [OutFrame.engineF { c.engine with
              checksum := 0, ctrlEnblReq := 0, modeReq := 0, reqType := 0 }]
          else [])) := by
  intro st c
  constructor
  · intro h
    simp [timerCallback, clearCond, h]
  · intro h
    have hc : clearCond st = true := by simp [clearCond, h]
    rcases hb : st.overrides[OVR_BRAKE]?.getD false <;>
      rcases ha : st.overrides[OVR_ACCEL]?.getD false <;>
      rcases hs : st.overrides[OVR_STEER]?.getD false <;>
      rcases hg : st.overrides[OVR_GEAR]?.getD false <;>
      rcases hd : st.overrides[OVR_DUMP_BED]?.getD false <;>
      rcases he : st.overrides[OVR_ENGINE]?.getD false <;>
      simp [timerCallback, hc, hb, ha, hs, hg, hd, he,
        neutralGearReqFrame, neutralDumpBedFrame]

/-- Witness for the amended C5 at concrete inputs: nothing is emitted
while enabled, and with only the dump-bed override flagged the single
emission is the fully neutral dump-bed frame. -/
theorem C5_failsafe_timer_witness :
    timerCallback { initState with active := true, prev := true } initCodec =
      (initCodec, []) ∧
    (timerCallback
      { initState with
        overrides := (List.replicate NUM_OVERRIDES false).set OVR_DUMP_BED true }
      initCodec).2 = [OutFrame.dumpBedF neutralDumpBedFrame] := by
  constructor
  · exact (C5_failsafe_timer _ _).1 rfl
  · rw [(C5_failsafe_timer
      { initState with
        overrides := (List.replicate NUM_OVERRIDES false).set OVR_DUMP_BED true }
      initCodec).2 rfl]
    decide

/-! ## List access lemmas used for the fault array -/

theorem getD_set_ne {α : Type} {i j : Nat} (h : i ≠ j) (l : List α) (v d : α) :
    (l.set i v).getD j d = l.getD j d := by
  induction l generalizing i j with
  | nil => simp
  | cons a t ih =>
    cases i with
    | zero =>
      cases j with
      | zero => exact absurd rfl h
      | succ m => simp
    | succ n =>
      cases j with
      | zero => rfl
      | succ m =>
        have hnm : n ≠ m := fun hh => h (by rw [hh])
        simpa using ih hnm

theorem getD_set_self {α : Type} (l : List α) (i : Nat) (v d : α)
    (h : i < l.length) : (l.set i v).getD i d = v := by
  induction l generalizing i with
  | nil => simp at h
  | cons a t ih =>
    cases i with
    | zero => rfl
    | succ n => simpa using ih n (by simpa using h)

theorem setFault_faults (i : Nat) (v : Bool) (s : DbwState)
    (h : i < NUM_SERIOUS_FAULTS) :
    ((setFault i v s).1).faults = s.faults.set i v := by
  unfold setFault
  rw [if_pos h]
  by_cases hv : (v && enabled s) = true <;>
    simp [publishDbwEnabled_faults, hv]

theorem setOverride_faults (i : Nat) (v : Bool) (s : DbwState) :
    ((setOverride i v s).1).faults = s.faults := by
  unfold setOverride
  split
  · by_cases hv : (v && enabled s) = true <;>
      simp [publishDbwEnabled_faults, hv]
  · rfl

/-- The watchdog routine only writes fault slots `FAULT_WATCH`,
`FAULT_WATCH_WARN` and `FAULT_WATCH_BRAKES`; the accelerator slot is
untouched. -/
theorem faultWatchdog3_getD_accel (fb : Bool) (src : Nat) (braking : Bool)
    (s : DbwState) :
    ((faultWatchdog3 fb src braking s).1).faults.getD FAULT_ACCEL false =
      s.faults.getD FAULT_ACCEL false := by
  have h7 : ((setFault FAULT_WATCH fb s).1).faults =
      s.faults.set FAULT_WATCH fb := setFault_faults _ _ _ (by decide)
  unfold faultWatchdog3
  dsimp only
  rw [getD_set_ne (show FAULT_WATCH_BRAKES ≠ FAULT_ACCEL by decide)]
  split
  · dsimp only
    rw [h7, getD_set_ne (show FAULT_WATCH_WARN ≠ FAULT_ACCEL by decide),
      getD_set_ne (show FAULT_WATCH ≠ FAULT_ACCEL by decide)]
  · split
    · dsimp only
      rw [h7, getD_set_ne (show FAULT_WATCH_WARN ≠ FAULT_ACCEL by decide),
        getD_set_ne (show FAULT_WATCH ≠ FAULT_ACCEL by decide)]
    · rw [h7, getD_set_ne (show FAULT_WATCH ≠ FAULT_ACCEL by decide)]

theorem faultWatchdog2_getD_accel (fb : Bool) (src : Nat) (s : DbwState) :
    ((faultWatchdog2 fb src s).1).faults.getD FAULT_ACCEL false =
      s.faults.getD FAULT_ACCEL false :=
  faultWatchdog3_getD_accel fb src _ s

/-- C6 counterexample: the gear decoder does not compare the declared
length against the message's defined length: with a defined length of 2 a
truncated frame of declared length 1 is still decoded and a report is
produced, where the claim demands a silent drop. -/
theorem C6_counterexample :
    ((recvGearRpt 2 initState
      { dlc := 1, driverActivity := 0, ctrlEnabled := 0, stateActual := 0,
        stateDes := 0, faultSig := 0, rejectSig := 0, mismatchFlash := 0,
        rollingCntr := 0 }).2.2).isSome = true ∧ (1 : Nat) < 2 := by
  decide

/-- C6 (amended): the brake and accelerator-pedal decoders silently drop
(no state change, no event, no report) every frame whose declared length
is below the defined length; the gear decoder's guard instead compares
against the literal 1, so it drops only empty frames and accepts any frame
with declared length at least 1 regardless of the defined length. -/
theorem C6_short_frames :
    (∀ (d : Nat) (st : DbwState) (f : BrakeRptFrame), f.dlc < d →
      recvBrakeRpt d st f = (st, [], none)) ∧
    (∀ (d : Nat) (st : DbwState) (f : AccelRptFrame), f.dlc < d →
      recvAccelPedalRpt d st f = (st, [], none)) ∧
    (∀ (d : Nat) (st : DbwState) (f : GearRptFrame), f.dlc = 0 →
      recvGearRpt d st f = (st, [], none)) ∧
    (∀ (d : Nat) (st : DbwState) (f : GearRptFrame), 1 ≤ f.dlc →
      ((recvGearRpt d st f).2.2).isSome = true) := by
  refine ⟨?_, ?_, ?_, ?_⟩
  · intro d st f h
    simp only [recvBrakeRpt]
    rw [if_neg (by omega)]
  · intro d st f h
    simp only [recvAccelPedalRpt]
    rw [if_neg (by omega)]
  · intro d st f h
    simp only [recvGearRpt]
    rw [if_neg (by omega)]
  · intro d st f h
    simp only [recvGearRpt]
    rw [if_pos h]
    rfl

/-- Witness for the amended C6 at concrete inputs. -/
theorem C6_short_frames_witness :
    recvBrakeRpt 4 initState
      { dlc := 2, faultSig := 1, driverActivity := 1, pdlDriverInput := 3,
        pdlPosnFdbck := 4, enabledSig := 1, rollingCntr := 5,
        pcntTorqueActual := 6, interventionActv := 0, interventionReady := 0,
        parkingBrkStatus := 0, ctrlType := 1 } = (initState, [], none) ∧
    ((recvGearRpt 3 initState
      { dlc := 1, driverActivity := 1, ctrlEnabled := 1, stateActual := 2,
        stateDes := 2, faultSig := 0, rejectSig := 0, mismatchFlash := 0,
        rollingCntr := 6 }).2.2).isSome = true :=
  ⟨C6_short_frames.1 4 initState _ (by decide),
   C6_short_frames.2.2.2 3 initState _ (by decide)⟩

/-- C7: every accepted accelerator-pedal frame produces a report, the
fault routed to `setFault(FAULT_ACCEL, ·)` — visible as the stored
accelerator fault slot after the call — is exactly the logical AND of the
two published channel-fault fields decoded from that same frame, so a
single channel fault alone never trips the subsystem fault. -/
theorem C7_accel_fault_and :
    (∀ (d : Nat) (st : DbwState) (f : AccelRptFrame), d ≤ f.dlc →
      ((recvAccelPedalRpt d st f).2.2).isSome = true) ∧
    (∀ (d : Nat) (st : DbwState) (f : AccelRptFrame) (rep : AccelPedalReport),
      d ≤ f.dlc → st.faults.length = NUM_FAULTS →
      (recvAccelPedalRpt d st f).2.2 = some rep →
      rep.fault_ch1 = toB f.faultCh1 ∧ rep.fault_ch2 = toB f.faultCh2 ∧
      ((recvAccelPedalRpt d st f).1).faults.getD FAULT_ACCEL false =
        (rep.fault_ch1 && rep.fault_ch2)) := by
  constructor
  · intro d st f h
    simp only [recvAccelPedalRpt]
    rw [if_pos h]
    rfl
  · intro d st f rep hd hlen hrep
    simp only [recvAccelPedalRpt] at hrep
    rw [if_pos hd] at hrep
    simp only [Option.some.injEq] at hrep
    subst hrep
    refine ⟨rfl, rfl, ?_⟩
    simp only [recvAccelPedalRpt]
    rw [if_pos hd]
    simp only [setOverride_faults, faultWatchdog2_getD_accel,
      setFault_faults _ _ _ (show FAULT_ACCEL < NUM_SERIOUS_FAULTS by decide)]
    exact getD_set_self _ _ _ _ (by rw [hlen]; decide)

/-- Witness for C7 at concrete inputs: both channel faults asserted trip
the stored accelerator fault; the report's channel fields match. -/
theorem C7_accel_fault_and_witness :
    ((recvAccelPedalRpt 4 initState
      { dlc := 4, faultCh1 := 1, faultCh2 := 1, faultSig := 0,
        driverActivity := 0, pdlDriverInput := 0, pdlPosnFdbck := 0,
        enabledSig := 0, ignoreDriver := 0, pcntTorqueActual := 0,
        ctrlType := 0, rollingCntr := 0 }).1).faults.getD FAULT_ACCEL false =
      true := by
  have h := (C7_accel_fault_and.2 4 initState
    { dlc := 4, faultCh1 := 1, faultCh2 := 1, faultSig := 0,
      driverActivity := 0, pdlDriverInput := 0, pdlPosnFdbck := 0,
      enabledSig := 0, ignoreDriver := 0, pcntTorqueActual := 0,
      ctrlType := 0, rollingCntr := 0 }
    { pedal_input := 0, pedal_output := 0, enabledRpt := false,
      ignore_driver := false, driver_activity := false, torque_actual := 0,
      control_type := 0, rolling_counter := 0,
      fault_accel_pedal_system := false, fault_ch1 := true,
      fault_ch2 := true }
    (by decide) (by decide) (by decide)).2.2
  rw [h]
  decide

/-- C9 counterexample: feeding a phase-0 frame and then a phase-2 frame,
skipping phase 1, does publish on the VIN output — a single 10-character
(incomplete) string — where the claim demands that nothing is emitted. -/
theorem C9_counterexample :
    (runVin 1 []
      [{ dlc := 8, mux := 0, d01 := 1, d02 := 2, d03 := 3, d04 := 4,
         d05 := 5, d06 := 6, d07 := 7, d08 := 0, d09 := 0, d10 := 0,
         d11 := 0, d12 := 0, d13 := 0, d14 := 0, d15 := 15, d16 := 16,
         d17 := 17 },
       { dlc := 8, mux := 2, d01 := 0, d02 := 0, d03 := 0, d04 := 0,
         d05 := 0, d06 := 0, d07 := 0, d08 := 0, d09 := 0, d10 := 0,
         d11 := 0, d12 := 0, d13 := 0, d14 := 0, d15 := 15, d16 := 16,
         d17 := 17 }]).2 ≠ [] ∧
    ((runVin 1 []
      [{ dlc := 8, mux := 0, d01 := 1, d02 := 2, d03 := 3, d04 := 4,
         d05 := 5, d06 := 6, d07 := 7, d08 := 0, d09 := 0, d10 := 0,
         d11 := 0, d12 := 0, d13 := 0, d14 := 0, d15 := 15, d16 := 16,
         d17 := 17 },
       { dlc := 8, mux := 2, d01 := 0, d02 := 0, d03 := 0, d04 := 0,
         d05 := 0, d06 := 0, d07 := 0, d08 := 0, d09 := 0, d10 := 0,
         d11 := 0, d12 := 0, d13 := 0, d14 := 0, d15 := 15, d16 := 16,
         d17 := 17 }]).2.map List.length) = [10] := by
  decide

/-- C9 (amended): from an empty buffer, phase 0 then phase 1 then phase 2
publishes exactly once, the full 17-character identifier assembled from
the three frames; phase 0 then phase 2 (skipping phase 1) also publishes
exactly once, but a 10-character incomplete string rather than nothing. -/
theorem C9_vin_reassembly :
    (∀ (d : Nat) (f0 f1 f2 : VinFrame),
      f0.mux = VIN_MUX_VIN0 → f1.mux = VIN_MUX_VIN1 → f2.mux = VIN_MUX_VIN2 →
      d ≤ f0.dlc → d ≤ f1.dlc → d ≤ f2.dlc →
      (runVin d [] [f0, f1, f2]).2 =
        [[f0.d01, f0.d02, f0.d03, f0.d04, f0.d05, f0.d06, f0.d07,
          f1.d08, f1.d09, f1.d10, f1.d11, f1.d12, f1.d13, f1.d14,
          f2.d15, f2.d16, f2.d17]]) ∧
    (∀ (d : Nat) (f0 f2 : VinFrame),
      f0.mux = VIN_MUX_VIN0 → f2.mux = VIN_MUX_VIN2 →
      d ≤ f0.dlc → d ≤ f2.dlc →
      (runVin d [] [f0, f2]).2 =
        [[f0.d01, f0.d02, f0.d03, f0.d04, f0.d05, f0.d06, f0.d07,
          f2.d15, f2.d16, f2.d17]]) := by
  constructor
  · intro d f0 f1 f2 h0 h1 h2 hd0 hd1 hd2
    norm_num [runVin, recvVinRpt, h0, h1, h2, hd0, hd1, hd2,
      VIN_MUX_VIN0, VIN_MUX_VIN1, VIN_MUX_VIN2]
  · intro d f0 f2 h0 h2 hd0 hd2
    norm_num [runVin, recvVinRpt, h0, h2, hd0, hd2,
      VIN_MUX_VIN0, VIN_MUX_VIN1, VIN_MUX_VIN2]

/-- Witness for the amended C9 at concrete digit values `1..17`: the
17-character identifier is published exactly once. -/
theorem C9_vin_reassembly_witness :
    (runVin 8 []
      [{ dlc := 8, mux := 0, d01 := 1, d02 := 2, d03 := 3, d04 := 4,
         d05 := 5, d06 := 6, d07 := 7, d08 := 0, d09 := 0, d10 := 0,
         d11 := 0, d12 := 0, d13 := 0, d14 := 0, d15 := 0, d16 := 0,
         d17 := 0 },
       { dlc := 8, mux := 1, d01 := 0, d02 := 0, d03 := 0, d04 := 0,
         d05 := 0, d06 := 0, d07 := 0, d08 := 8, d09 := 9, d10 := 10,
         d11 := 11, d12 := 12, d13 := 13, d14 := 14, d15 := 0, d16 := 0,
         d17 := 0 },
       { dlc := 8, mux := 2, d01 := 0, d02 := 0, d03 := 0, d04 := 0,
         d05 := 0, d06 := 0, d07 := 0, d08 := 0, d09 := 0, d10 := 0,
         d11 := 0, d12 := 0, d13 := 0, d14 := 0, d15 := 15, d16 := 16,
         d17 := 17 }]).2 =
      [[1, 2, 3, 4, 5, 6, 7, 8, 9, 10, 11, 12, 13, 14, 15, 16, 17]] :=
  C9_vin_reassembly.1 8 _ _ _ rfl rfl rfl (by decide) (by decide) (by decide)

/-- C10 counterexample: the handler computes `dt` against the
integer-seconds field of the stored stamp, not the full timestamp.  With
the record last stamped at 10.9 s and a wheel-speed report at 11.3 s the
elapsed time is 0.4 s (below the 0.5 s gate, so the claim demands the
positions advance by `velocity * dt`, here to 0.4), but the code computes
`dt = 11.3 - 10 = 1.3` and leaves every position unchanged. -/
theorem C10_counterexample :
    (publishJointStatesWheels (113 / 10)
      { front_left := 1, front_right := 1, rear_left := 1, rear_right := 1 }
      { stamp := 109 / 10, pos := [0, 0, 0, 0, 0, 0],
        vel := [0, 0, 0, 0, 0, 0] }).1.pos = [0, 0, 0, 0, 0, 0] ∧
    (claimJointStatesWheels (113 / 10)
      { front_left := 1, front_right := 1, rear_left := 1, rear_right := 1 }
      { stamp := 109 / 10, pos := [0, 0, 0, 0, 0, 0],
        vel := [0, 0, 0, 0, 0, 0] }).1.pos =
      [2 / 5, 2 / 5, 2 / 5, 2 / 5, 0, 0] ∧
    ((2 : ℚ) / 5) ≠ 0 := by
  refine ⟨?_, ?_, by norm_num⟩
  · norm_num [publishJointStatesWheels, ratTrunc, JOINT_FL, JOINT_FR,
      JOINT_RL, JOINT_RR]
  · norm_num [claimJointStatesWheels, cfmod, ratTrunc, piD, JOINT_FL,
      JOINT_FR, JOINT_RL, JOINT_RR]

/-- C10 (amended): every wheel-speed report updates the four wheel
velocities and republishes the record; with `dt` computed as the new
stamp minus the integer-seconds part of the stored stamp (equal to the
elapsed time whenever the stored stamp has no fractional second), when
`dt < 0.5` each of the four wheel joint positions advances by
`velocity * dt` wrapped with `fmod` by `2 * M_PI` (the steer positions are
untouched by this producer), and when `dt` is at least 0.5 every position
is unchanged even though the velocities were updated.  The closing
conjuncts check the spec's numeric cases: previous position 0, velocity
1 rad/s, `dt = 0.1` publishes 0.1; `dt = 0.6` leaves positions unchanged
while the velocities become 1. -/
theorem C10_wheel_speed_kinematics :
    (∀ (t stamp p1 p2 p3 p4 p5 p6 v1 v2 v3 v4 v5 v6 : ℚ) (w : WheelSpeeds),
      (publishJointStatesWheels t w
        { stamp := stamp, pos := [p1, p2, p3, p4, p5, p6],
          vel := [v1, v2, v3, v4, v5, v6] }).2 = true ∧
      (publishJointStatesWheels t w
        { stamp := stamp, pos := [p1, p2, p3, p4, p5, p6],
          vel := [v1, v2, v3, v4, v5, v6] }).1.stamp = t ∧
      (publishJointStatesWheels t w
        { stamp := stamp, pos := [p1, p2, p3, p4, p5, p6],
          vel := [v1, v2, v3, v4, v5, v6] }).1.vel =
        [w.front_left, w.front_right, w.rear_left, w.rear_right, v5, v6] ∧
      (publishJointStatesWheels t w
        { stamp := stamp, pos := [p1, p2, p3, p4, p5, p6],
          vel := [v1, v2, v3, v4, v5, v6] }).1.pos =
        (if t - ((ratTrunc stamp : ℤ) : ℚ) < 1 / 2 then
          [cfmod (p1 + (t - ((ratTrunc stamp : ℤ) : ℚ)) * w.front_left)
            (2 * piD),
           cfmod (p2 + (t - ((ratTrunc stamp : ℤ) : ℚ)) * w.front_right)
            (2 * piD),
           cfmod (p3 + (t - ((ratTrunc stamp : ℤ) : ℚ)) * w.rear_left)
            (2 * piD),
           cfmod (p4 + (t - ((ratTrunc stamp : ℤ) : ℚ)) * w.rear_right)
            (2 * piD),
           p5, p6]
        else [p1, p2, p3, p4, p5, p6])) ∧
    (publishJointStatesWheels (1 / 10)
      { front_left := 1, front_right := 1, rear_left := 1, rear_right := 1 }
      { stamp := 0, pos := [0, 0, 0, 0, 0, 0],
        vel := [0, 0, 0, 0, 0, 0] }).1.pos =
      [1 / 10, 1 / 10, 1 / 10, 1 / 10, 0, 0] ∧
    (publishJointStatesWheels (3 / 5)
      { front_left := 1, front_right := 1, rear_left := 1, rear_right := 1 }
      { stamp := 0, pos := [0, 0, 0, 0, 0, 0],
        vel := [0, 0, 0, 0, 0, 0] }).1.pos = [0, 0, 0, 0, 0, 0] ∧
    (publishJointStatesWheels (3 / 5)
      { front_left := 1, front_right := 1, rear_left := 1, rear_right := 1 }
      { stamp := 0, pos := [0, 0, 0, 0, 0, 0],
        vel := [0, 0, 0, 0, 0, 0] }).1.vel = [1, 1, 1, 1, 0, 0] := by
  refine ⟨?_, ?_, ?_, ?_⟩
  · intro t stamp p1 p2 p3 p4 p5 p6 v1 v2 v3 v4 v5 v6 w
    refine ⟨rfl, rfl, rfl, ?_⟩
    by_cases hdt : t - ((ratTrunc stamp : ℤ) : ℚ) < 1 / 2
    · simp only [publishJointStatesWheels, if_pos hdt]
      rfl
    · simp only [publishJointStatesWheels, if_neg hdt]
  · norm_num [publishJointStatesWheels, cfmod, ratTrunc, piD, JOINT_FL,
      JOINT_FR, JOINT_RL, JOINT_RR]
  · norm_num [publishJointStatesWheels, ratTrunc, JOINT_FL, JOINT_FR,
      JOINT_RL, JOINT_RR]
  · norm_num [publishJointStatesWheels, ratTrunc, JOINT_FL, JOINT_FR,
      JOINT_RL, JOINT_RR]

end RaptorDbw
